import Mathlib

set_option maxRecDepth 10000

/-!
Verification of the adaptive English-proficiency engine
(`english_test_app.py` / `english_test_bank.py`).

The Lean definitions below are a shallow embedding of the Python source:
each `def` mirrors one Python function or constant of the repository,
keeping the source's names.  Streamlit session state
(`st.session_state`) becomes the explicit `SessionState` record threaded
through the transition functions; UI-only fields (current question
widgets, pending messages, timers) are omitted because no transition
rule reads them back.
-/

namespace EnglishTest

/-- CEFR levels, in the order of `LEVEL_SEQUENCE` of the source. -/
inductive Level where
  | A1 | A2 | B1 | B2 | C1 | C2
deriving DecidableEq, Repr

/-- `LEVEL_SEQUENCE = ["A1", "A2", "B1", "B2", "C1", "C2"]`. -/
def LEVEL_SEQUENCE : List Level :=
  [Level.A1, Level.A2, Level.B1, Level.B2, Level.C1, Level.C2]

/-- Position of a level inside `LEVEL_SEQUENCE` (`LEVEL_SEQUENCE.index(level)`). -/
def level_index : Level → Nat
  | Level.A1 => 0
  | Level.A2 => 1
  | Level.B1 => 2
  | Level.B2 => 3
  | Level.C1 => 4
  | Level.C2 => 5

/-- One entry of the `LEVEL_RULES` dict. -/
structure LevelRule where
  block_size : Nat
  promotion_threshold : Nat
deriving DecidableEq, Repr

/-- `LEVEL_RULES`: block size and promotion threshold per level. -/
def LEVEL_RULES : Level → LevelRule
  | Level.A1 => ⟨10, 8⟩
  | Level.A2 => ⟨10, 8⟩
  | Level.B1 => ⟨10, 8⟩
  | Level.B2 => ⟨10, 8⟩
  | Level.C1 => ⟨12, 9⟩
  | Level.C2 => ⟨12, 9⟩

/-- `EARLY_STOP_WRONGS = 3`. -/
def EARLY_STOP_WRONGS : Nat := 3

/-- `MAX_QUESTIONS = 50`. -/
def MAX_QUESTIONS : Nat := 50

/-- The counters of one adaptive block (the dict built by `new_block`).
`used_ids`, `used_group_ids` and `skill_sequence` only steer which
question is drawn next and are omitted: the transition rules under
verification read only the level and the three counters. -/
structure Block where
  level : Level
  presented : Nat
  correct : Nat
  wrong : Nat
deriving DecidableEq, Repr

/-- `new_block(level)`: a fresh block with all counters at zero. -/
def new_block (level : Level) : Block :=
  { level := level, presented := 0, correct := 0, wrong := 0 }

/-- One entry of `st.session_state.history` as appended by
`process_adaptive_answer` (the question id, skill and pending-review
flag are recorded too but never read by any transition rule).  The
question is always drawn from the current block's level, so `level`
here is the block's level. -/
structure HistoryEntry where
  level : Level
  correct : Bool
deriving DecidableEq, Repr

/-- One entry of `st.session_state.block_results` as appended by
`record_block_result` (the display-only `goal` string is omitted). -/
structure BlockResult where
  level : Level
  correct : Nat
  wrong : Nat
  presented : Nat
  passed : Bool
deriving DecidableEq, Repr

/-- The adaptive part of `st.session_state`. -/
structure SessionState where
  level_idx : Nat
  block : Block
  passed_blocks : Level → Nat
  history : List HistoryEntry
  block_results : List BlockResult
  finished : Bool
  final_level : Option Level
  confirmed : Bool

/-- `reset_adaptive_state()`: the fresh session. -/
def reset_adaptive_state : SessionState :=
  { level_idx := 0
    block := new_block Level.A1
    passed_blocks := fun _ => 0
    history := []
    block_results := []
    finished := false
    final_level := none
    confirmed := false }

/-- `finish_adaptive(level, confirmed)`. -/
def finish_adaptive (s : SessionState) (level : Level) (confirmed : Bool) : SessionState :=
  { s with
    finished := true
    final_level := some level
    confirmed := confirmed
    level_idx := level_index level }

/-- `best_level_guess()`: the highest level with a recorded pass, else the
current level. -/
def best_level_guess (s : SessionState) : Level :=
  let highest := LEVEL_SEQUENCE.foldl
    (fun acc level => if 0 < s.passed_blocks level then some level else acc) none
  match highest with
  | some level => level
  | none => LEVEL_SEQUENCE.getD s.level_idx Level.A1

/-- `record_block_result(block, passed)`. -/
def record_block_result (s : SessionState) (block : Block) (passed : Bool) : SessionState :=
  { s with
    block_results := s.block_results ++
      [{ level := block.level
         correct := block.correct
         wrong := block.wrong
         presented := block.presented
         passed := passed }] }

/-- The `block_finished` condition of `evaluate_block_completion`:
`presented >= block_size or (wrong >= EARLY_STOP_WRONGS and correct < threshold)`. -/
abbrev block_finished_check (b : Block) : Prop :=
  (LEVEL_RULES b.level).block_size ≤ b.presented ∨
    (EARLY_STOP_WRONGS ≤ b.wrong ∧ b.correct < (LEVEL_RULES b.level).promotion_threshold)

/-- `evaluate_block_completion(block)`: close the current block when it is
finished and apply the promotion rules. -/
def evaluate_block_completion (s : SessionState) : SessionState :=
  let block := s.block
  let level := block.level
  let rule := LEVEL_RULES level
  let threshold := rule.promotion_threshold
  if block_finished_check block then
    if threshold ≤ block.correct then
      let s1 := record_block_result s block true
      let s2 := { s1 with
        passed_blocks := fun l =>
          if l = level then s1.passed_blocks l + 1 else s1.passed_blocks l }
      if level = Level.C2 then
        finish_adaptive s2 Level.C2 true
      else if 2 ≤ s2.passed_blocks level then
        finish_adaptive s2 level true
      else if s2.level_idx < LEVEL_SEQUENCE.length - 1 then
        { s2 with
          level_idx := s2.level_idx + 1
          block := new_block (LEVEL_SEQUENCE.getD (s2.level_idx + 1) Level.A1) }
      else
        finish_adaptive s2 level true
    else
      let s1 := record_block_result s block false
      if s1.level_idx = 0 then
        { s1 with block := new_block level }
      else
        finish_adaptive s1 (LEVEL_SEQUENCE.getD (s1.level_idx - 1) Level.A1) true
  else
    s

/-- The three counter increments of `process_adaptive_answer`. -/
def update_block (b : Block) (is_correct : Bool) : Block :=
  { b with
    presented := b.presented + 1
    correct := b.correct + (if is_correct then 1 else 0)
    wrong := b.wrong + (if is_correct then 0 else 1) }

/-- The state right after `process_adaptive_answer` has updated the block
counters and appended to the history, before `evaluate_block_completion`. -/
def scored_state (s : SessionState) (is_correct : Bool) : SessionState :=
  { s with
    block := update_block s.block is_correct
    history := s.history ++ [{ level := s.block.level, correct := is_correct }] }

/-- `process_adaptive_answer(question, response)` with the score already
computed (`is_correct`): update the counters and the history, evaluate
the block, and finalize on the global item cap. -/
def process_adaptive_answer (s : SessionState) (is_correct : Bool) : SessionState :=
  let s1 := evaluate_block_completion (scored_state s is_correct)
  if s1.finished = false ∧ MAX_QUESTIONS ≤ s1.history.length then
    finish_adaptive s1 (best_level_guess s1) false
  else
    s1

/-- One submission in the adaptive flow: the host only submits answers
while the session is not finished (the UI shows the results page once
`finished` is set and asks no further question). -/
def adaptive_step (s : SessionState) (is_correct : Bool) : SessionState :=
  if s.finished then s else process_adaptive_answer s is_correct

/-- The session reached from a fresh state by a sequence of scored
submissions. -/
def run_adaptive (answers : List Bool) : SessionState :=
  answers.foldl adaptive_step reset_adaptive_state

/-! ## Text normalization and word counting

Python `str` values are modelled as lists of characters; `None`-able
strings as `Option Str`.  `str.lower` is modelled by `Char.toLower`
(ASCII case folding), `str.strip`/`str.split` by the whitespace
predicate `Char.isWhitespace`. -/

/-- A Python string. -/
abbrev Str := List Char

/-- `value.strip()`: drop leading and trailing whitespace. -/
def strip (s : Str) : Str :=
  ((s.dropWhile Char.isWhitespace).reverse.dropWhile Char.isWhitespace).reverse

/-- `normalize_free_text(value)`: `(value or "").strip()`. -/
def normalize_free_text (value : Option Str) : Str :=
  strip (value.getD [])

/-- `value.lower()`. -/
def lower_str (s : Str) : Str :=
  s.map Char.toLower

/-- Accumulator pass behind `str.split()`: split on whitespace runs,
producing no empty fragments.  `acc` holds the current fragment reversed. -/
def split_ws_aux : Str → Str → List Str
  | [], acc => if acc.isEmpty then [] else [acc.reverse]
  | c :: cs, acc =>
    if c.isWhitespace then
      if acc.isEmpty then split_ws_aux cs []
      else acc.reverse :: split_ws_aux cs []
    else split_ws_aux cs (c :: acc)

/-- `value.split()` with no separator argument. -/
def split_ws (s : Str) : List Str :=
  split_ws_aux s []

/-- `sep.join(fragments)`. -/
def join_with (sep : Str) : List Str → Str
  | [] => []
  | [w] => w
  | w :: x :: ws => w ++ sep ++ join_with sep (x :: ws)

/-- `normalize_for_comparison(value)`:
`" ".join(normalize_free_text(value).lower().split())`. -/
def normalize_for_comparison (value : Option Str) : Str :=
  join_with [' '] (split_ws (lower_str (normalize_free_text value)))

/-- A character matched by the word regex `[\w'-]+` of `count_words`
(ASCII portion: letters, digits, underscore, apostrophe, hyphen;
`Char.ofNat 39` is the apostrophe). -/
def is_word_char (c : Char) : Bool :=
  c.isAlphanum || c = '_' || c = Char.ofNat 39 || c = '-'

/-- Count the maximal runs of word characters; `in_word` records whether
the previous character belonged to a run. -/
def count_words_aux : Str → Bool → Nat
  | [], _ => 0
  | c :: cs, in_word =>
    if is_word_char c then
      (if in_word then 0 else 1) + count_words_aux cs true
    else
      count_words_aux cs false

/-- `count_words(value)`: `len(re.findall(r"[\w'-]+", value.strip()))`,
`0` for `None`. -/
def count_words (value : Option Str) : Nat :=
  count_words_aux (strip (value.getD [])) false

/-! ## Questions, responses, completeness, validation and scoring -/

/-- One entry of a question's `cloze_items` list. -/
structure ClozeItem where
  number : Nat
  answer : Str
  options : Option (List Str)
deriving Repr

/-- One entry of a question's `word_formation_items` list. -/
structure WordFormationItem where
  number : Nat
  sentence : Str
  base : Str
  answer : Str
deriving Repr

/-- One entry of a question's `transform_items` list;
`alternatives` defaults to `[]` (`item.get("alternatives", [])`). -/
structure TransformItem where
  number : Nat
  original : Str
  keyword : Str
  answer : Str
  alternatives : List Str
deriving Repr

/-- A question dict, by its `type` tag (the UI-supported types).
`open_text` is `WRITING_TYPE`; its `min_words`/`max_words` come from the
validated bank (`question.get("min_words", 0)` etc.). -/
inductive Question where
  | multiple_choice (options : List Str) (answer : Str)
  | cloze_mc (cloze_items : List ClozeItem)
  | cloze_open (cloze_items : List ClozeItem)
  | word_formation (word_formation_items : List WordFormationItem)
  | key_transform (transform_items : List TransformItem)
  | open_text (min_words max_words : Nat)

/-- A raw response value: `None`, a selected option string, a
number-keyed dict of sub-responses, or free text. -/
inductive Response where
  | rnone
  | rchoice (value : Str)
  | rdict (answers : Nat → Option Str)
  | rtext (text : Str)

/-- `response.get(number)` after `response if isinstance(response, dict)
else {}` (or `(response or {})`): non-dict responses yield nothing.  The
UI never hands a truthy non-dict response to a dict-shaped question, so
the `{}` fallback is the only reachable non-dict case. -/
def dict_get (r : Response) (n : Nat) : Option Str :=
  match r with
  | Response.rdict answers => answers n
  | _ => none

/-- `response_is_complete(question, response)`. -/
def response_is_complete : Question → Response → Bool
  | Question.multiple_choice _ _, r =>
    match r with
    | Response.rnone => false
    | _ => true
  | Question.cloze_mc items, r =>
    match r with
    | Response.rdict answers =>
      items.all fun item => !(normalize_free_text (answers item.number)).isEmpty
    | _ => false
  | Question.cloze_open items, r =>
    match r with
    | Response.rdict answers =>
      items.all fun item => !(normalize_free_text (answers item.number)).isEmpty
    | _ => false
  | Question.word_formation items, r =>
    match r with
    | Response.rdict answers =>
      items.all fun item => !(normalize_free_text (answers item.number)).isEmpty
    | _ => false
  | Question.key_transform items, r =>
    match r with
    | Response.rdict answers =>
      items.all fun item => !(normalize_free_text (answers item.number)).isEmpty
    | _ => false
  | Question.open_text min_words max_words, r =>
    match r with
    | Response.rtext text =>
      decide (min_words ≤ count_words (some text)) &&
        decide (count_words (some text) ≤ max_words)
    | _ => false

/-- The numbers still unanswered in a dict-shaped response (the `missing`
list comprehensions of `validate_response`). -/
def missing_numbers (numbers : List Nat) (r : Response) : List Nat :=
  numbers.filter fun n => (normalize_free_text (dict_get r n)).isEmpty

/-- `", ".join(str(n) for n in missing)`. -/
def join_numbers (ns : List Nat) : Str :=
  join_with (", ".data) (ns.map fun n => (toString n).data)

/-- `validate_response(question, response)`: `None` when complete, else
the warning message shown to the user. -/
def validate_response (q : Question) (r : Response) : Option Str :=
  if response_is_complete q r then none
  else
    match q with
    | Question.multiple_choice _ _ =>
      some "Selecciona una alternativa antes de continuar.".data
    | Question.cloze_mc items =>
      let missing := missing_numbers (items.map (·.number)) r
      if missing.isEmpty then
        some "Completa todos los huecos antes de enviar.".data
      else
        some ("Completa todos los huecos (pendientes: ".data ++
          join_numbers missing ++ ").".data)
    | Question.cloze_open items =>
      let missing := missing_numbers (items.map (·.number)) r
      if missing.isEmpty then
        some "Completa todos los huecos antes de enviar.".data
      else
        some ("Completa todos los huecos (pendientes: ".data ++
          join_numbers missing ++ ").".data)
    | Question.word_formation items =>
      let missing := missing_numbers (items.map (·.number)) r
      some ("Responde todas las transformaciones (pendientes: ".data ++
        join_numbers missing ++ ").".data)
    | Question.key_transform items =>
      let missing := missing_numbers (items.map (·.number)) r
      some ("Completa todas las reescrituras (pendientes: ".data ++
        join_numbers missing ++ ").".data)
    | Question.open_text min_words max_words =>
      let text := match r with | Response.rtext t => some t | _ => none
      let word_count := count_words text
      if word_count < min_words then
        some ("Tu respuesta debe tener al menos ".data ++ (toString min_words).data ++
          " palabras (actual: ".data ++ (toString word_count).data ++ ").".data)
      else if max_words < word_count then
        some ("Reduce tu respuesta a máximo ".data ++ (toString max_words).data ++
          " palabras (actual: ".data ++ (toString word_count).data ++ ").".data)
      else
        some "Completa la redacción dentro del rango indicado.".data

/-- One breakdown entry of `score_question`. -/
structure ScoreEntry where
  expected : Str
  response : Option Str
  correct : Bool

/-- The result dict of `score_question` (`is_correct` plus the
per-element breakdown; the writing-only AI fields are not modelled). -/
structure ScoreResult where
  is_correct : Bool
  breakdown : List ScoreEntry

/-- `score_question(question, response)`.  For `open_text` both source
branches (AI available or pending manual review) return
`is_correct = True`. -/
def score_question (q : Question) (r : Response) : ScoreResult :=
  match q with
  | Question.multiple_choice _ expected =>
    let correct := match r with
      | Response.rchoice value => decide (value = expected)
      | _ => false
    { is_correct := correct
      breakdown := [{ expected := expected, response := none, correct := correct }] }
  | Question.cloze_mc items =>
    let breakdown := items.map fun item =>
      { expected := item.answer
        response := dict_get r item.number
        correct :=
          match dict_get r item.number with
          | some value => decide (value = item.answer)
          | none => false }
    { is_correct := breakdown.all (·.correct), breakdown := breakdown }
  | Question.cloze_open items =>
    let breakdown := items.map fun item =>
      { expected := item.answer
        response := dict_get r item.number
        correct :=
          decide (normalize_for_comparison (dict_get r item.number) =
            normalize_for_comparison (some item.answer)) }
    { is_correct := breakdown.all (·.correct), breakdown := breakdown }
  | Question.word_formation items =>
    let breakdown := items.map fun item =>
      { expected := item.answer
        response := dict_get r item.number
        correct :=
          decide (normalize_for_comparison (dict_get r item.number) =
            normalize_for_comparison (some item.answer)) }
    { is_correct := breakdown.all (·.correct), breakdown := breakdown }
  | Question.key_transform items =>
    let breakdown := items.map fun item =>
      { expected := item.answer
        response := dict_get r item.number
        correct :=
          decide (normalize_for_comparison (dict_get r item.number) ∈
            (item.answer :: item.alternatives).map
              fun candidate => normalize_for_comparison (some candidate)) }
    { is_correct := breakdown.all (·.correct), breakdown := breakdown }
  | Question.open_text _ _ =>
    { is_correct := true, breakdown := [] }

/-- The adaptive submit handler around the `st.button` call: validate the
response, warn without touching the session when it is incomplete,
otherwise score it and fold it into the session. -/
def submit_adaptive (s : SessionState) (q : Question) (r : Response) :
    SessionState × Option Str :=
  match validate_response q r with
  | some warning => (s, some warning)
  | none => (process_adaptive_answer s (score_question q r).is_correct, none)

/-! ## The item-bank loader (`english_test_bank.py`)

A bank document is modelled as an ordered list of `(level, items)`
pairs; each raw item is a `BankEntry` whose `Option` fields model keys
that may be absent.  The purely type-level checks of the source
(`isinstance` on strings, lists, the required-key test) always succeed
on this typed representation and are not repeated; every check that can
fail on a well-typed document is modelled, in source order.  Validation
runs in `Except`: the first violation aborts the whole load, so no
partial catalog is ever produced.  On success the source returns the
per-level lists of cleaned items (a field-for-field projection of the
input); the model returns the validated document itself. -/

/-- `WRITING_TYPE = "open_text"`. -/
def WRITING_TYPE : Str := "open_text".data

/-- `ALLOWED_SKILLS`. -/
def ALLOWED_SKILLS : List Str :=
  ["grammar".data, "vocab".data, "reading".data, "use_of_english".data, "writing".data]

/-- `OPTION_BASED_TYPES = {"multiple_choice"}`. -/
def OPTION_BASED_TYPES : List Str := ["multiple_choice".data]

/-- `TEXT_RESPONSE_TYPES = {"cloze_open", "word_formation", "key_transform"}`. -/
def TEXT_RESPONSE_TYPES : List Str :=
  ["cloze_open".data, "word_formation".data, "key_transform".data]

/-- `CLOZE_CHOICE_TYPE = "cloze_mc"`. -/
def CLOZE_CHOICE_TYPE : Str := "cloze_mc".data

/-- `SUPPORTED_TYPES`. -/
def SUPPORTED_TYPES : List Str :=
  OPTION_BASED_TYPES ++ TEXT_RESPONSE_TYPES ++ [WRITING_TYPE, CLOZE_CHOICE_TYPE]

/-- `MIN_ITEMS_PER_LEVEL = 0`. -/
def MIN_ITEMS_PER_LEVEL : Nat := 0

/-- A raw item definition as read from the bank document.  `type_` holds
the `"type"` key. -/
structure BankEntry where
  id : Str
  level : Str
  skill : Str
  type_ : Str
  prompt : Str
  task_type : Option Str
  options : Option (List Str)
  answer : Option Str
  cloze_items : Option (List ClozeItem)
  word_formation_items : Option (List WordFormationItem)
  transform_items : Option (List TransformItem)
  min_words : Option Int
  max_words : Option Int
  rubric : Option (List Str)
  explanation : Option Str
  estimated_time : Option Int

/-- `_validate_options(item_id, options)`: a list of at least two
strings. -/
def _validate_options (item_id : Str) (options : Option (List Str)) : Except Str Unit := do
  match options with
  | none => throw ("Item options must be provided as a list: ".data ++ item_id)
  | some opts =>
    if opts.length < 2 then
      throw ("Item must include at least two options: ".data ++ item_id)

/-- `_validate_string_answer(item_id, answer)`: a string that is not
blank. -/
def _validate_string_answer (item_id : Str) (answer : Option Str) : Except Str Unit := do
  match answer with
  | none => throw ("Item answer must be a string: ".data ++ item_id)
  | some a =>
    if (strip a).isEmpty then
      throw ("Item answer cannot be empty: ".data ++ item_id)

/-- The per-gap loop of `_validate_cloze_items`, carrying the
`seen_numbers` set. -/
def _validate_cloze_gaps (item_id : Str) (require_options : Bool) (seen : List Nat) :
    List ClozeItem → Except Str Unit
  | [] => .ok ()
  | gap :: rest => do
    if seen.contains gap.number then
      throw ("Item repeats cloze number: ".data ++ item_id)
    _validate_string_answer item_id (some gap.answer)
    if require_options then
      _validate_options item_id gap.options
      match gap.options with
      | some opts =>
        if ¬ opts.contains gap.answer then
          throw ("Item gap answer missing from options: ".data ++ item_id)
      | none => throw ("Item gap options must be provided as a list: ".data ++ item_id)
    else
      match gap.options with
      | some opts => _validate_options item_id (some opts)
      | none => pure ()
    _validate_cloze_gaps item_id require_options (gap.number :: seen) rest

/-- `_validate_cloze_items(item_id, items, require_options)`. -/
def _validate_cloze_items (item_id : Str) (items : Option (List ClozeItem))
    (require_options : Bool) : Except Str Unit := do
  match items with
  | none => throw ("Item must define a non-empty cloze_items list: ".data ++ item_id)
  | some gaps =>
    if gaps.isEmpty then
      throw ("Item must define a non-empty cloze_items list: ".data ++ item_id)
    _validate_cloze_gaps item_id require_options [] gaps

/-- `_validate_word_formation_items(item_id, items)`. -/
def _validate_word_formation_items (item_id : Str)
    (items : Option (List WordFormationItem)) : Except Str Unit := do
  match items with
  | none => throw ("Item must define word_formation_items: ".data ++ item_id)
  | some entries =>
    if entries.isEmpty then
      throw ("Item must define word_formation_items: ".data ++ item_id)
    for entry in entries do
      _validate_string_answer item_id (some entry.answer)

/-- `_validate_transform_items(item_id, items)`. -/
def _validate_transform_items (item_id : Str)
    (items : Option (List TransformItem)) : Except Str Unit := do
  match items with
  | none => throw ("Item must define transform_items: ".data ++ item_id)
  | some entries =>
    if entries.isEmpty then
      throw ("Item must define transform_items: ".data ++ item_id)
    for entry in entries do
      _validate_string_answer item_id (some entry.answer)

/-- `_ensure_absent(item_id, entry, {"options", "answer"})`. -/
def _ensure_absent (item_id : Str) (options : Option (List Str))
    (answer : Option Str) : Except Str Unit := do
  if options.isSome then
    throw ("Item must not define options: ".data ++ item_id)
  if answer.isSome then
    throw ("Item must not define answer: ".data ++ item_id)

/-- `_validate_writing_fields(entry, item_id)` (its returned field dict
is merged into the cleaned item, which the model does not rebuild). -/
def _validate_writing_fields (e : BankEntry) (item_id : Str) : Except Str Unit := do
  match e.task_type with
  | none => throw ("Writing item must provide a non-empty task_type: ".data ++ item_id)
  | some t =>
    if (strip t).isEmpty then
      throw ("Writing item must provide a non-empty task_type: ".data ++ item_id)
  match e.min_words with
  | none => throw ("Writing item must define a positive integer min_words: ".data ++ item_id)
  | some mn =>
    if mn ≤ 0 then
      throw ("Writing item must define a positive integer min_words: ".data ++ item_id)
    match e.max_words with
    | none => throw ("Writing item must define a max_words integer >= min_words: ".data ++ item_id)
    | some mx =>
      if mx < mn then
        throw ("Writing item must define a max_words integer >= min_words: ".data ++ item_id)
  match e.rubric with
  | none => throw ("Writing item must include a non-empty rubric list: ".data ++ item_id)
  | some rubric =>
    if rubric.isEmpty then
      throw ("Writing item must include a non-empty rubric list: ".data ++ item_id)
    for criterion in rubric do
      if (strip criterion).isEmpty then
        throw ("Writing item rubric entry must be a non-empty string: ".data ++ item_id)

/-- The per-item body of the `load_item_bank` loop: every check of the
source that can fail on a well-typed entry, in source order. -/
def validate_bank_entry (seen : List Str) (level : Str) (e : BankEntry) :
    Except Str Unit := do
  if seen.contains e.id then
    throw ("Duplicate item id detected: ".data ++ e.id)
  if e.level ≠ level then
    throw ("Item level mismatch: ".data ++ e.id)
  if ¬ ALLOWED_SKILLS.contains e.skill then
    throw ("Item has unsupported skill: ".data ++ e.id)
  if ¬ SUPPORTED_TYPES.contains e.type_ then
    throw ("Item has unsupported type: ".data ++ e.id)
  if e.skill = "writing".data ∧ e.type_ ≠ WRITING_TYPE then
    throw ("Writing item must use type open_text: ".data ++ e.id)
  if e.type_ = WRITING_TYPE ∧ e.skill ≠ "writing".data then
    if e.task_type ≠ some "short_answer".data then
      throw ("Open text items must either declare skill writing or use task_type short_answer: ".data ++ e.id)
  if OPTION_BASED_TYPES.contains e.type_ then
    match e.options with
    | none => throw ("Item must include an options list: ".data ++ e.id)
    | some _ => pure ()
    _validate_options e.id e.options
    match e.answer with
    | none => throw ("Item must include an answer: ".data ++ e.id)
    | some _ => pure ()
    _validate_string_answer e.id e.answer
    match e.options, e.answer with
    | some opts, some a =>
      if ¬ opts.contains a then
        throw ("Item answer is not present in options: ".data ++ e.id)
    | _, _ => pure ()
  else if e.type_ = CLOZE_CHOICE_TYPE then
    _validate_cloze_items e.id e.cloze_items true
  else if e.type_ = "cloze_open".data then
    _validate_cloze_items e.id e.cloze_items false
  else if e.type_ = "word_formation".data then
    _validate_word_formation_items e.id e.word_formation_items
  else if e.type_ = "key_transform".data then
    _validate_transform_items e.id e.transform_items
  else if e.type_ = WRITING_TYPE then
    _ensure_absent e.id e.options e.answer
    _validate_writing_fields e e.id
  match e.estimated_time with
  | none => pure ()
  | some t =>
    if t ≤ 0 then
      throw ("Item field estimatedTime must be a positive number when provided: ".data ++ e.id)

/-- The inner item loop of `load_item_bank`, threading the `seen_ids`
set. -/
def load_items (level : Str) : List Str → List BankEntry → Except Str (List Str)
  | seen, [] => .ok seen
  | seen, e :: rest => do
    validate_bank_entry seen level e
    load_items level (e.id :: seen) rest

/-- The outer level loop of `load_item_bank`. -/
def load_levels : List Str → List (Str × List BankEntry) → Except Str Unit
  | _, [] => .ok ()
  | seen, (level, items) :: rest => do
    if items.length < MIN_ITEMS_PER_LEVEL then
      throw ("Level holds too few items: ".data ++ level)
    let seen2 ← load_items level seen items
    load_levels seen2 rest

/-- `load_item_bank(path)` after the file read and JSON parse: validate
every level and item; the whole load fails on the first violation. -/
def load_item_bank (doc : List (Str × List BankEntry)) :
    Except Str (List (Str × List BankEntry)) := do
  load_levels [] doc
  .ok doc

/-! ## Invariants of the adaptive session -/

/-- The state invariant maintained by every adaptive submission. -/
structure SessionInv (s : SessionState) : Prop where
  counts : s.block.correct + s.block.wrong = s.block.presented
  size_le : s.block.presented ≤ (LEVEL_RULES s.block.level).block_size
  idx_lt : s.level_idx < LEVEL_SEQUENCE.length
  level_eq : s.finished = false → s.block.level = LEVEL_SEQUENCE.getD s.level_idx Level.A1
  open_block : s.finished = false → ¬ block_finished_check s.block
  hist_lt : s.finished = false → s.history.length < MAX_QUESTIONS
  hist_le : s.history.length ≤ MAX_QUESTIONS
  passed_le : ∀ l, s.passed_blocks l ≤ 1
  passed_lt_idx : s.finished = false → ∀ l, 0 < s.passed_blocks l → level_index l < s.level_idx

lemma level_index_lt (l : Level) : level_index l < LEVEL_SEQUENCE.length := by
  cases l <;> decide

lemma getD_level_index (l : Level) : LEVEL_SEQUENCE.getD (level_index l) Level.A1 = l := by
  cases l <;> rfl

lemma level_index_getD {i : Nat} (h : i < LEVEL_SEQUENCE.length) :
    level_index (LEVEL_SEQUENCE.getD i Level.A1) = i := by
  simp only [LEVEL_SEQUENCE, List.length_cons, List.length_nil] at h
  interval_cases i <;> rfl

lemma new_block_not_finished (l : Level) : ¬ block_finished_check (new_block l) := by
  cases l <;> decide

lemma session_inv_reset : SessionInv reset_adaptive_state := by
  constructor <;> simp [reset_adaptive_state, new_block, MAX_QUESTIONS, block_finished_check,
    LEVEL_SEQUENCE, LEVEL_RULES, EARLY_STOP_WRONGS]

lemma evaluate_core
    (s : SessionState)
    (counts : s.block.correct + s.block.wrong = s.block.presented)
    (size_le : s.block.presented ≤ (LEVEL_RULES s.block.level).block_size)
    (idx_lt : s.level_idx < LEVEL_SEQUENCE.length)
    (level_eq : s.block.level = LEVEL_SEQUENCE.getD s.level_idx Level.A1)
    (passed_le : ∀ l, s.passed_blocks l ≤ 1)
    (passed_lt_idx : ∀ l, 0 < s.passed_blocks l → level_index l < s.level_idx) :
    (evaluate_block_completion s).block.correct + (evaluate_block_completion s).block.wrong =
        (evaluate_block_completion s).block.presented ∧
    (evaluate_block_completion s).block.presented ≤
        (LEVEL_RULES (evaluate_block_completion s).block.level).block_size ∧
    (evaluate_block_completion s).level_idx < LEVEL_SEQUENCE.length ∧
    ((evaluate_block_completion s).finished = false →
      (evaluate_block_completion s).block.level =
        LEVEL_SEQUENCE.getD (evaluate_block_completion s).level_idx Level.A1) ∧
    ((evaluate_block_completion s).finished = false →
      ¬ block_finished_check (evaluate_block_completion s).block) ∧
    (evaluate_block_completion s).history = s.history ∧
    (∀ l, (evaluate_block_completion s).passed_blocks l ≤ 1) ∧
    ((evaluate_block_completion s).finished = false →
      ∀ l, 0 < (evaluate_block_completion s).passed_blocks l →
        level_index l < (evaluate_block_completion s).level_idx) := by
  have hp0 : s.passed_blocks s.block.level = 0 := by
    by_contra h
    have := passed_lt_idx _ (Nat.pos_of_ne_zero h)
    rw [level_eq, level_index_getD idx_lt] at this
    omega
  unfold evaluate_block_completion
  dsimp only []
  simp only [record_block_result, finish_adaptive]
  rw [if_pos (trivial : True), hp0]
  rw [if_neg (by omega : ¬ (2 ≤ 0 + 1))]
  split_ifs with hb hpass hc2 hidx hidx0
  all_goals try dsimp only
  · -- pass at C2: finalize confirmed
    refine ⟨counts, size_le, level_index_lt _, by simp, by simp, rfl, ?_, by simp⟩
    intro l
    by_cases hl : l = s.block.level <;> simp [hl, hp0, passed_le l]
  · -- pass below the top: move up with a fresh block
    refine ⟨by simp [new_block], by simp [new_block], by omega, ?_, ?_, rfl, ?_, ?_⟩
    · intro _
      simp [new_block]
    · intro _
      simpa [new_block] using new_block_not_finished _
    · intro l
      by_cases hl : l = s.block.level <;> simp [hl, hp0, passed_le l]
    · intro _ l hl
      by_cases h : l = s.block.level
      · subst h
        rw [level_eq, level_index_getD idx_lt]
        omega
      · simp only [if_neg h] at hl
        have := passed_lt_idx l hl
        omega
  · -- pass at the last index without being C2: finalize at that level
    refine ⟨counts, size_le, level_index_lt _, by simp, by simp, rfl, ?_, by simp⟩
    intro l
    by_cases hl : l = s.block.level <;> simp [hl, hp0, passed_le l]
  · -- fail at the lowest level: fresh block at the same level
    refine ⟨by simp [new_block], by simp [new_block], idx_lt, ?_, ?_, rfl, passed_le, ?_⟩
    · intro _
      simp [new_block, level_eq]
    · intro _
      simpa [new_block] using new_block_not_finished _
    · intro _ l hl
      exact passed_lt_idx l hl
  · -- fail above the lowest level: finalize at the previous level
    exact ⟨counts, size_le, level_index_lt _, by simp, by simp, rfl, passed_le, by simp⟩
  · -- block not finished: nothing changes
    exact ⟨counts, size_le, idx_lt, fun _ => level_eq, fun _ => hb, rfl, passed_le,
      fun _ => passed_lt_idx⟩

lemma session_inv_step (s : SessionState) (hs : SessionInv s) (a : Bool) :
    SessionInv (adaptive_step s a) := by
  unfold adaptive_step
  cases hfin : s.finished
  · simp only [hfin, Bool.false_eq_true, if_false]
    have hopen := hs.open_block hfin
    have hcounts : (scored_state s a).block.correct + (scored_state s a).block.wrong =
        (scored_state s a).block.presented := by
      have := hs.counts
      cases a <;> simp [scored_state, update_block] <;> omega
    have hsize : (scored_state s a).block.presented ≤
        (LEVEL_RULES (scored_state s a).block.level).block_size := by
      have hlt : ¬ ((LEVEL_RULES s.block.level).block_size ≤ s.block.presented) :=
        fun h => hopen (Or.inl h)
      simp only [scored_state, update_block]
      omega
    have hlevel : (scored_state s a).block.level =
        LEVEL_SEQUENCE.getD (scored_state s a).level_idx Level.A1 := by
      simpa [scored_state, update_block] using hs.level_eq hfin
    have hple : ∀ l, (scored_state s a).passed_blocks l ≤ 1 := by
      simpa [scored_state] using hs.passed_le
    have hpli : ∀ l, 0 < (scored_state s a).passed_blocks l →
        level_index l < (scored_state s a).level_idx := by
      simpa [scored_state] using hs.passed_lt_idx hfin
    have hidx : (scored_state s a).level_idx < LEVEL_SEQUENCE.length := hs.idx_lt
    obtain ⟨c1, c2, c3, c4, c5, c6, c7, c8⟩ :=
      evaluate_core (scored_state s a) hcounts hsize hidx hlevel hple hpli
    have h_len : (evaluate_block_completion (scored_state s a)).history.length =
        s.history.length + 1 := by
      rw [c6]
      simp [scored_state]
    have h_lt : s.history.length < MAX_QUESTIONS := hs.hist_lt hfin
    unfold process_adaptive_answer
    by_cases hcap : (evaluate_block_completion (scored_state s a)).finished = false ∧
        MAX_QUESTIONS ≤ (evaluate_block_completion (scored_state s a)).history.length
    · rw [if_pos hcap]
      refine ⟨by simpa [finish_adaptive] using c1, by simpa [finish_adaptive] using c2,
        ?_, ?_, ?_, ?_, ?_, ?_, ?_⟩
      · simpa [finish_adaptive] using level_index_lt _
      · simp [finish_adaptive]
      · simp [finish_adaptive]
      · simp [finish_adaptive]
      · simp only [finish_adaptive]
        omega
      · simpa [finish_adaptive] using c7
      · simp [finish_adaptive]
    · rw [if_neg hcap]
      refine ⟨c1, c2, c3, c4, c5, ?_, ?_, c7, c8⟩
      · intro hf
        have : ¬ (MAX_QUESTIONS ≤
            (evaluate_block_completion (scored_state s a)).history.length) := by
          intro hle
          exact hcap ⟨hf, hle⟩
        omega
      · omega
  · simpa [hfin] using hs

lemma session_inv_run (answers : List Bool) : SessionInv (run_adaptive answers) := by
  unfold run_adaptive
  induction answers using List.reverseRecOn with
  | nil => exact session_inv_reset
  | append_singleton xs x ih =>
    rw [List.foldl_append]
    exact session_inv_step _ ih x

/-! ## Step characterizations -/

lemma evaluate_no_close (s : SessionState) (h : ¬ block_finished_check s.block) :
    evaluate_block_completion s = s := by
  unfold evaluate_block_completion
  dsimp only []
  rw [if_neg h]

/-- Every branch that closes the block appends exactly one result entry,
carrying the block counters and `passed = (threshold ≤ correct)`. -/
lemma evaluate_close_result (s : SessionState) (h : block_finished_check s.block) :
    (evaluate_block_completion s).block_results = s.block_results ++
      [{ level := s.block.level
         correct := s.block.correct
         wrong := s.block.wrong
         presented := s.block.presented
         passed := decide ((LEVEL_RULES s.block.level).promotion_threshold ≤ s.block.correct) }] := by
  unfold evaluate_block_completion
  dsimp only []
  rw [if_pos h]
  by_cases hpass : (LEVEL_RULES s.block.level).promotion_threshold ≤ s.block.correct
  · rw [if_pos hpass]
    simp only [decide_eq_true hpass]
    split_ifs <;> simp [record_block_result, finish_adaptive]
  · rw [if_neg hpass]
    simp only [decide_eq_false hpass]
    split_ifs <;> simp [record_block_result, finish_adaptive]

/-- A failing close above the lowest level finalizes, confirmed, at the
previous level of the sequence. -/
lemma evaluate_fail_top (s : SessionState) (h : block_finished_check s.block)
    (hfail : ¬ (LEVEL_RULES s.block.level).promotion_threshold ≤ s.block.correct)
    (hidx : s.level_idx ≠ 0) :
    evaluate_block_completion s =
      finish_adaptive (record_block_result s s.block false)
        (LEVEL_SEQUENCE.getD (s.level_idx - 1) Level.A1) true := by
  unfold evaluate_block_completion
  dsimp only []
  rw [if_pos h, if_neg hfail, if_neg (by simpa [record_block_result] using hidx)]
  simp [record_block_result]

/-- A failing close at the lowest level restarts the same level with a
fresh block. -/
lemma evaluate_fail_bottom (s : SessionState) (h : block_finished_check s.block)
    (hfail : ¬ (LEVEL_RULES s.block.level).promotion_threshold ≤ s.block.correct)
    (hidx : s.level_idx = 0) :
    evaluate_block_completion s =
      { record_block_result s s.block false with block := new_block s.block.level } := by
  unfold evaluate_block_completion
  dsimp only []
  rw [if_pos h, if_neg hfail, if_pos (by simpa [record_block_result] using hidx)]

lemma level_index_le_five (l : Level) : level_index l ≤ 5 := by
  cases l <;> decide

/-- When some level has a recorded pass, `best_level_guess` returns the
highest such level. -/
lemma best_level_guess_spec (t : SessionState) (h : ∃ l, 0 < t.passed_blocks l) :
    0 < t.passed_blocks (best_level_guess t) ∧
    ∀ l, 0 < t.passed_blocks l → level_index l ≤ level_index (best_level_guess t) := by
  obtain ⟨l0, hl0⟩ := h
  unfold best_level_guess
  simp only [LEVEL_SEQUENCE, List.foldl_cons, List.foldl_nil]
  by_cases h6 : 0 < t.passed_blocks Level.C2
  · refine ⟨by simp [h6], ?_⟩
    intro l _
    simp only [h6, if_pos]
    exact level_index_le_five l
  · by_cases h5 : 0 < t.passed_blocks Level.C1
    · refine ⟨by simp [h6, h5], ?_⟩
      intro l hl
      simp only [h6, h5, if_pos, if_neg]
      cases l <;> simp_all [level_index]
    · by_cases h4 : 0 < t.passed_blocks Level.B2
      · refine ⟨by simp [h6, h5, h4], ?_⟩
        intro l hl
        simp only [h6, h5, h4, if_pos, if_neg]
        cases l <;> simp_all [level_index]
      · by_cases h3 : 0 < t.passed_blocks Level.B1
        · refine ⟨by simp [h6, h5, h4, h3], ?_⟩
          intro l hl
          simp only [h6, h5, h4, h3, if_pos, if_neg]
          cases l <;> simp_all [level_index]
        · by_cases h2 : 0 < t.passed_blocks Level.A2
          · refine ⟨by simp [h6, h5, h4, h3, h2], ?_⟩
            intro l hl
            simp only [h6, h5, h4, h3, h2, if_pos, if_neg]
            cases l <;> simp_all [level_index]
          · by_cases h1 : 0 < t.passed_blocks Level.A1
            · refine ⟨by simp [h6, h5, h4, h3, h2, h1], ?_⟩
              intro l hl
              simp only [h6, h5, h4, h3, h2, h1, if_pos, if_neg]
              cases l <;> simp_all [level_index]
            · exfalso
              cases l0 <;> simp_all

lemma step_results_eq_evaluate (s : SessionState) (a : Bool)
    (hfin : s.finished = false) :
    (adaptive_step s a).block_results =
      (evaluate_block_completion (scored_state s a)).block_results := by
  unfold adaptive_step process_adaptive_answer
  rw [hfin]
  simp only [Bool.false_eq_true, if_false]
  split_ifs <;> simp [finish_adaptive]

/-- An open block closes as a pass exactly when the scored answer fills
the block to its size with the threshold reached. -/
lemma step_close_pass_iff (s : SessionState) (a : Bool)
    (hfin : s.finished = false) :
    ((adaptive_step s a).block_results = s.block_results ++
        [{ level := s.block.level
           correct := (update_block s.block a).correct
           wrong := (update_block s.block a).wrong
           presented := (update_block s.block a).presented
           passed := true }] ↔
      ((LEVEL_RULES s.block.level).block_size ≤ (update_block s.block a).presented ∧
        (LEVEL_RULES s.block.level).promotion_threshold ≤ (update_block s.block a).correct)) := by
  have hscored_block : (scored_state s a).block = update_block s.block a := rfl
  have hscored_res : (scored_state s a).block_results = s.block_results := rfl
  have hlevel : (update_block s.block a).level = s.block.level := rfl
  rw [step_results_eq_evaluate s a hfin]
  constructor
  · intro h
    by_cases hc : block_finished_check (update_block s.block a)
    · have hclose := evaluate_close_result (scored_state s a) (by rwa [hscored_block])
      rw [hscored_res, hscored_block, hlevel] at hclose
      rw [hclose] at h
      have hQP := List.singleton_injective (List.append_cancel_left h)
      have hpassdec : decide ((LEVEL_RULES s.block.level).promotion_threshold ≤
          (update_block s.block a).correct) = true := congrArg BlockResult.passed hQP
      have hpass := of_decide_eq_true hpassdec
      refine ⟨?_, hpass⟩
      rcases hc with hc | hc
      · exact hc
      · rw [hlevel] at hc
        exact absurd hpass (by omega)
    · rw [evaluate_no_close (scored_state s a) (by rwa [hscored_block]), hscored_res] at h
      exact absurd (congrArg List.length h) (by simp)
  · rintro ⟨h1, h2⟩
    have hc : block_finished_check (update_block s.block a) := Or.inl h1
    have hclose := evaluate_close_result (scored_state s a) (by rwa [hscored_block])
    rw [hscored_res, hscored_block, hlevel] at hclose
    rw [hclose, decide_eq_true h2]

lemma evaluate_history (s : SessionState) :
    (evaluate_block_completion s).history = s.history := by
  unfold evaluate_block_completion
  dsimp only []
  split_ifs <;> simp [record_block_result, finish_adaptive]

lemma scored_history_len (s : SessionState) (a : Bool) :
    (scored_state s a).history.length = s.history.length + 1 := by
  simp [scored_state]

/-- A failing close above the lowest level finalizes the session,
confirmed, at the previous level. -/
lemma step_fail_top_fields (s : SessionState) (a : Bool) (hfin : s.finished = false)
    (hidx : s.level_idx ≠ 0)
    (hc : block_finished_check (update_block s.block a))
    (hfail : ¬ (LEVEL_RULES s.block.level).promotion_threshold ≤
      (update_block s.block a).correct) :
    (adaptive_step s a).finished = true ∧ (adaptive_step s a).confirmed = true ∧
    (adaptive_step s a).final_level =
      some (LEVEL_SEQUENCE.getD (s.level_idx - 1) Level.A1) := by
  unfold adaptive_step
  rw [hfin]
  simp only [Bool.false_eq_true, if_false]
  unfold process_adaptive_answer
  rw [evaluate_fail_top (scored_state s a) hc hfail hidx]
  simp only [finish_adaptive, record_block_result]
  exact ⟨rfl, rfl, rfl⟩

/-- A failing close at the lowest level restarts the level with a fresh
block; the session finalizes, unconfirmed, exactly when the item cap is
reached. -/
lemma step_fail_bottom_fields (s : SessionState) (a : Bool) (hfin : s.finished = false)
    (hidx0 : s.level_idx = 0)
    (hc : block_finished_check (update_block s.block a))
    (hfail : ¬ (LEVEL_RULES s.block.level).promotion_threshold ≤
      (update_block s.block a).correct) :
    (adaptive_step s a).block = new_block s.block.level ∧
    ((adaptive_step s a).finished = true ↔ MAX_QUESTIONS ≤ s.history.length + 1) ∧
    ((adaptive_step s a).finished = true → (adaptive_step s a).confirmed = false ∧
      (adaptive_step s a).final_level =
        some (best_level_guess (evaluate_block_completion (scored_state s a)))) := by
  unfold adaptive_step
  rw [hfin]
  simp only [Bool.false_eq_true, if_false]
  unfold process_adaptive_answer
  rw [evaluate_fail_bottom (scored_state s a) hc hfail hidx0]
  by_cases hcap : MAX_QUESTIONS ≤ s.history.length + 1
  · rw [if_pos ?side]
    case side =>
      constructor
      · simp [record_block_result, scored_state, hfin]
      · simpa [record_block_result, scored_state] using hcap
    refine ⟨?_, ?_, ?_⟩
    · simp only [finish_adaptive]
      rfl
    · simp [finish_adaptive, hcap]
    · intro _
      simp [finish_adaptive]
  · rw [if_neg ?side]
    case side =>
      rintro ⟨-, hlen⟩
      exact hcap (by simpa [record_block_result, scored_state] using hlen)
    refine ⟨rfl, ?_, ?_⟩
    · simp only [record_block_result, scored_state, hfin]
      simpa using hcap
    · intro hcontra
      simp [record_block_result, scored_state, hfin] at hcontra

/-- Reaching the global cap with the block still open finalizes,
unconfirmed, at the best-guess level. -/
lemma step_cap_fields (s : SessionState) (a : Bool) (hfin : s.finished = false)
    (hev : (evaluate_block_completion (scored_state s a)).finished = false)
    (hlen : MAX_QUESTIONS ≤ s.history.length + 1) :
    (adaptive_step s a).finished = true ∧ (adaptive_step s a).confirmed = false ∧
    (adaptive_step s a).final_level =
      some (best_level_guess (evaluate_block_completion (scored_state s a))) ∧
    (adaptive_step s a).passed_blocks =
      (evaluate_block_completion (scored_state s a)).passed_blocks := by
  unfold adaptive_step
  rw [hfin]
  simp only [Bool.false_eq_true, if_false]
  unfold process_adaptive_answer
  rw [if_pos ⟨hev, by rw [evaluate_history, scored_history_len]; exact hlen⟩]
  simp [finish_adaptive]

lemma level_rules_size (l : Level) :
    (LEVEL_RULES l).promotion_threshold + 2 ≤ (LEVEL_RULES l).block_size := by
  cases l <;> decide

/-- Any block closed as a fail by a submission closed exactly at the
third wrong answer, with the threshold still unreached. -/
lemma step_fail_close_spec (s : SessionState) (hs : SessionInv s) (a : Bool)
    (hfin : s.finished = false) (r : BlockResult)
    (h : (adaptive_step s a).block_results = s.block_results ++ [r])
    (hr : r.passed = false) :
    r.wrong = 3 ∧ a = false ∧ s.block.wrong = 2 ∧
      r.correct < (LEVEL_RULES s.block.level).promotion_threshold ∧
      r.level = s.block.level := by
  have hopen := hs.open_block hfin
  have hcounts := hs.counts
  have hscored_block : (scored_state s a).block = update_block s.block a := rfl
  have hscored_res : (scored_state s a).block_results = s.block_results := rfl
  have hlevel : (update_block s.block a).level = s.block.level := rfl
  rw [step_results_eq_evaluate s a hfin] at h
  by_cases hc : block_finished_check (update_block s.block a)
  · have hclose := evaluate_close_result (scored_state s a) (by rwa [hscored_block])
    rw [hscored_res, hscored_block, hlevel] at hclose
    rw [hclose] at h
    have hrq := (List.singleton_injective (List.append_cancel_left h)).symm
    rw [hrq] at hr ⊢
    simp only at hr ⊢
    have hfail : ¬ (LEVEL_RULES s.block.level).promotion_threshold ≤
        (update_block s.block a).correct := of_decide_eq_false hr
    have hopen2 : s.block.presented < (LEVEL_RULES s.block.level).block_size ∧
        (EARLY_STOP_WRONGS ≤ s.block.wrong →
          (LEVEL_RULES s.block.level).promotion_threshold ≤ s.block.correct) := by
      constructor
      · by_contra hcon
        exact hopen (Or.inl (Nat.le_of_not_lt hcon))
      · intro h3
        by_contra hcon
        exact hopen (Or.inr ⟨h3, Nat.lt_of_not_le hcon⟩)
    have hsz := hopen2.1
    have hTS := level_rules_size s.block.level
    have hcnt := hcounts
    by_cases hwlt : EARLY_STOP_WRONGS ≤ s.block.wrong
    · exact absurd (le_trans (hopen2.2 hwlt)
        (by cases a <;> simp [update_block] : s.block.correct ≤
          (update_block s.block a).correct)) hfail
    · have hw2 : s.block.wrong < EARLY_STOP_WRONGS := Nat.lt_of_not_le hwlt
      cases a
      · have hc2 : (LEVEL_RULES s.block.level).block_size ≤ s.block.presented + 1 ∨
            (EARLY_STOP_WRONGS ≤ s.block.wrong + 1 ∧
              s.block.correct < (LEVEL_RULES s.block.level).promotion_threshold) := by
          simpa [update_block, block_finished_check] using hc
        have hfail2 : s.block.correct < (LEVEL_RULES s.block.level).promotion_threshold := by
          simpa [update_block] using Nat.lt_of_not_le hfail
        have hw3 : (update_block s.block false).wrong = s.block.wrong + 1 := by
          simp [update_block]
        have hcc : (update_block s.block false).correct = s.block.correct := by
          simp [update_block]
        refine ⟨?_, rfl, ?_, ?_, trivial⟩
        · rw [hw3]
          simp only [EARLY_STOP_WRONGS] at hw2 hc2 ⊢
          rcases hc2 with hc2 | hc2 <;> omega
        · simp only [EARLY_STOP_WRONGS] at hw2 hc2
          rcases hc2 with hc2 | hc2 <;> omega
        · rw [hcc]
          exact hfail2
      · exfalso
        have hc2 : (LEVEL_RULES s.block.level).block_size ≤ s.block.presented + 1 ∨
            (EARLY_STOP_WRONGS ≤ s.block.wrong ∧
              s.block.correct + 1 < (LEVEL_RULES s.block.level).promotion_threshold) := by
          simpa [update_block, block_finished_check] using hc
        have hfail2 : s.block.correct + 1 < (LEVEL_RULES s.block.level).promotion_threshold := by
          simpa [update_block] using Nat.lt_of_not_le hfail
        simp only [EARLY_STOP_WRONGS] at hw2
        rcases hc2 with hc2 | hc2 <;> omega
  · rw [evaluate_no_close (scored_state s a) (by rwa [hscored_block]), hscored_res] at h
    exact absurd (congrArg List.length h) (by simp)

/-- The third wrong answer on a block below the threshold closes it as a
fail at that very answer. -/
lemma step_third_wrong_closes (s : SessionState) (hfin : s.finished = false)
    (hw : s.block.wrong = 2)
    (hcor : s.block.correct < (LEVEL_RULES s.block.level).promotion_threshold) :
    (adaptive_step s false).block_results = s.block_results ++
      [{ level := s.block.level
         correct := s.block.correct
         wrong := 3
         presented := s.block.presented + 1
         passed := false }] := by
  have hscored_block : (scored_state s false).block = update_block s.block false := rfl
  have hscored_res : (scored_state s false).block_results = s.block_results := rfl
  have hlevel : (update_block s.block false).level = s.block.level := rfl
  have hc : block_finished_check (update_block s.block false) := by
    refine Or.inr ⟨?_, ?_⟩
    · have h1 : (update_block s.block false).wrong = s.block.wrong + 1 := by
        simp [update_block]
      rw [h1, hw]
      decide
    · have h2 : (update_block s.block false).correct = s.block.correct := by
        simp [update_block]
      rw [h2, hlevel]
      exact hcor
  have hclose := evaluate_close_result (scored_state s false) (by rwa [hscored_block])
  rw [hscored_res, hscored_block, hlevel] at hclose
  rw [step_results_eq_evaluate s false hfin, hclose]
  have e1 : (update_block s.block false).correct = s.block.correct := by
    simp [update_block]
  have e2 : (update_block s.block false).wrong = s.block.wrong + 1 := by
    simp [update_block]
  have e3 : (update_block s.block false).presented = s.block.presented + 1 := by
    simp [update_block]
  rw [e1, e2, e3, hw, decide_eq_false (Nat.not_le.mpr hcor)]

/-- A fresh confirmation out of `evaluate_block_completion` comes either
from a pass at C2 or from a fail above the lowest level; the two-passes
branch never fires because the closing level has no prior pass. -/
lemma evaluate_confirm_source (s : SessionState)
    (hp0 : s.passed_blocks s.block.level = 0)
    (idx_lt : s.level_idx < LEVEL_SEQUENCE.length)
    (level_eq : s.block.level = LEVEL_SEQUENCE.getD s.level_idx Level.A1)
    (hconf : s.confirmed = false)
    (hct : (evaluate_block_completion s).confirmed = true) :
    block_finished_check s.block ∧
    (((LEVEL_RULES s.block.level).promotion_threshold ≤ s.block.correct ∧
        s.block.level = Level.C2) ∨
      (¬ (LEVEL_RULES s.block.level).promotion_threshold ≤ s.block.correct ∧
        0 < s.level_idx)) := by
  by_cases hb : block_finished_check s.block
  · refine ⟨hb, ?_⟩
    by_cases hpass : (LEVEL_RULES s.block.level).promotion_threshold ≤ s.block.correct
    · left
      refine ⟨hpass, ?_⟩
      by_cases hc2 : s.block.level = Level.C2
      · exact hc2
      · exfalso
        unfold evaluate_block_completion at hct
        dsimp only [] at hct
        rw [if_pos hb, if_pos hpass, if_neg hc2] at hct
        simp only [record_block_result] at hct
        rw [if_pos (trivial : True), hp0] at hct
        rw [if_neg (by omega : ¬ (2 ≤ 0 + 1))] at hct
        by_cases hidx : s.level_idx < LEVEL_SEQUENCE.length - 1
        · rw [if_pos hidx] at hct
          simp only at hct
          rw [hconf] at hct
          exact Bool.false_ne_true hct
        · have h5 : s.level_idx = 5 := by
            simp only [LEVEL_SEQUENCE, List.length_cons, List.length_nil] at idx_lt hidx
            omega
          rw [h5] at level_eq
          simp [LEVEL_SEQUENCE] at level_eq
          exact hc2 level_eq
    · right
      refine ⟨hpass, ?_⟩
      by_cases hidx0 : s.level_idx = 0
      · exfalso
        rw [evaluate_fail_bottom s hb hpass hidx0] at hct
        simp only [record_block_result] at hct
        rw [hconf] at hct
        exact Bool.false_ne_true hct
      · omega
  · exfalso
    rw [evaluate_no_close s hb, hconf] at hct
    exact Bool.false_ne_true hct

/-! ## Claims -/

/-- Scenario A of the spec: pass A1 and A2 with 8/10 each, then at B1
answer correct ×3, wrong, correct ×5 — reaching correct = 8, wrong = 1,
presented = 9. -/
def scenarioA_answers : List Bool :=
  List.replicate 8 true ++ [false, false] ++ (List.replicate 8 true ++ [false, false]) ++
  [true, true, true, false, true, true, true, true, true]

/-- Pass A1 with 8/10, then two wrong answers at A2. -/
def ansC6_answers : List Bool :=
  List.replicate 8 true ++ [false, false] ++ [false, false]

/-- Claim C1, counterexample: at level B1 a block state with correct = 8
(the threshold), wrong = 1, presented = 9 has NOT closed: the B1 block is
still open with its counters intact, the session is not finished, and no
third block result has been recorded. -/
theorem C1_counterexample :
    (run_adaptive scenarioA_answers).block =
      { level := Level.B1, presented := 9, correct := 8, wrong := 1 } ∧
    (run_adaptive scenarioA_answers).finished = false ∧
    (run_adaptive scenarioA_answers).block_results.length = 2 ∧
    (run_adaptive scenarioA_answers).block_results.map BlockResult.level =
      [Level.A1, Level.A2] := by
  decide

/-- Claim C1 (amended): a scored answer on an open block closes it as a
pass exactly when it fills the block to its full size with the correct
count at or above the promotion threshold — never earlier, however many
correct answers have accumulated. -/
theorem C1_theorem (answers : List Bool) (a : Bool)
    (hfin : (run_adaptive answers).finished = false) :
    ((adaptive_step (run_adaptive answers) a).block_results =
        (run_adaptive answers).block_results ++
        [{ level := (run_adaptive answers).block.level
           correct := (update_block (run_adaptive answers).block a).correct
           wrong := (update_block (run_adaptive answers).block a).wrong
           presented := (update_block (run_adaptive answers).block a).presented
           passed := true }] ↔
      ((LEVEL_RULES (run_adaptive answers).block.level).block_size ≤
          (update_block (run_adaptive answers).block a).presented ∧
        (LEVEL_RULES (run_adaptive answers).block.level).promotion_threshold ≤
          (update_block (run_adaptive answers).block a).correct)) :=
  step_close_pass_iff (run_adaptive answers) a hfin

/-- Claim C1, witness: after Scenario A, the 10th B1 answer (correct)
closes the block as a pass with correct = 9, presented = 10. -/
theorem C1_witness :
    (adaptive_step (run_adaptive scenarioA_answers) true).block_results =
      (run_adaptive scenarioA_answers).block_results ++
      [{ level := Level.B1, correct := 9, wrong := 1, presented := 10, passed := true }] :=
  (C1_theorem scenarioA_answers true (by decide)).mpr (by decide)

/-- Claim C2, counterexample: after an A1 block has failed twice in a
row with only 6 items administered, the session is NOT finalized: a
third fresh A1 block is open. -/
theorem C2_counterexample :
    (run_adaptive (List.replicate 6 false)).finished = false ∧
    (run_adaptive (List.replicate 6 false)).block_results =
      [{ level := Level.A1, correct := 0, wrong := 3, presented := 3, passed := false },
       { level := Level.A1, correct := 0, wrong := 3, presented := 3, passed := false }] ∧
    (run_adaptive (List.replicate 6 false)).history.length = 6 ∧
    (run_adaptive (List.replicate 6 false)).block = new_block Level.A1 ∧
    (run_adaptive (List.replicate 6 false)).level_idx = 0 := by
  decide

/-- Claim C2 (amended): a failing close at the lowest level always
restarts that level with a fresh block, no matter how many times it has
already failed; the session finalizes — unconfirmed, at the best-guess
level — exactly when the 50-item cap is reached. -/
theorem C2_theorem (answers : List Bool) (a : Bool)
    (hfin : (run_adaptive answers).finished = false)
    (hidx0 : (run_adaptive answers).level_idx = 0)
    (hc : block_finished_check (update_block (run_adaptive answers).block a))
    (hfail : ¬ (LEVEL_RULES (run_adaptive answers).block.level).promotion_threshold ≤
      (update_block (run_adaptive answers).block a).correct) :
    (adaptive_step (run_adaptive answers) a).block =
      new_block (run_adaptive answers).block.level ∧
    ((adaptive_step (run_adaptive answers) a).finished = true ↔
      MAX_QUESTIONS ≤ (run_adaptive answers).history.length + 1) ∧
    ((adaptive_step (run_adaptive answers) a).finished = true →
      (adaptive_step (run_adaptive answers) a).confirmed = false ∧
      (adaptive_step (run_adaptive answers) a).final_level =
        some (best_level_guess
          (evaluate_block_completion (scored_state (run_adaptive answers) a)))) :=
  step_fail_bottom_fields (run_adaptive answers) a hfin hidx0 hc hfail

/-- Claim C2, witness: the 6th wrong answer (closing the second failed
A1 block, 6 items < 50) starts a fresh A1 block without finalizing. -/
theorem C2_witness :
    (adaptive_step (run_adaptive (List.replicate 5 false)) false).block =
      new_block Level.A1 ∧
    ¬ ((adaptive_step (run_adaptive (List.replicate 5 false)) false).finished = true) := by
  have h := C2_theorem (List.replicate 5 false) false (by decide) (by decide)
    (by decide) (by decide)
  exact ⟨h.1, fun hf => absurd (h.2.1.mp hf) (by decide)⟩

/-- Claim C5: in every reachable session state, the stored block
satisfies correct + wrong = presented and presented ≤ block size; the
same holds for the block mid-step, right after the counter update; the
block sizes are 10 for A1-B2 and 12 for C1/C2. -/
theorem C5_theorem (answers : List Bool) (a : Bool) :
    ((run_adaptive answers).block.correct + (run_adaptive answers).block.wrong =
      (run_adaptive answers).block.presented) ∧
    ((run_adaptive answers).block.presented ≤
      (LEVEL_RULES (run_adaptive answers).block.level).block_size) ∧
    ((scored_state (run_adaptive answers) a).block.correct +
        (scored_state (run_adaptive answers) a).block.wrong =
      (scored_state (run_adaptive answers) a).block.presented) ∧
    ((run_adaptive answers).finished = false →
      (scored_state (run_adaptive answers) a).block.presented ≤
        (LEVEL_RULES (scored_state (run_adaptive answers) a).block.level).block_size) ∧
    (LEVEL_RULES Level.A1).block_size = 10 ∧ (LEVEL_RULES Level.A2).block_size = 10 ∧
    (LEVEL_RULES Level.B1).block_size = 10 ∧ (LEVEL_RULES Level.B2).block_size = 10 ∧
    (LEVEL_RULES Level.C1).block_size = 12 ∧ (LEVEL_RULES Level.C2).block_size = 12 := by
  have hs := session_inv_run answers
  refine ⟨hs.counts, hs.size_le, ?_, ?_, rfl, rfl, rfl, rfl, rfl, rfl⟩
  · have := hs.counts
    cases a <;> simp [scored_state, update_block] <;> omega
  · intro hfin
    have hopen := hs.open_block hfin
    have hlt : ¬ ((LEVEL_RULES (run_adaptive answers).block.level).block_size ≤
        (run_adaptive answers).block.presented) := fun h => hopen (Or.inl h)
    simp only [scored_state, update_block]
    omega

/-- Claim C6: a failing block close at any level above the lowest
finalizes the session immediately, confirmed, with the immediately
preceding level of the sequence as the final level (the block's level
being the one at the current index). -/
theorem C6_theorem (answers : List Bool) (a : Bool)
    (hfin : (run_adaptive answers).finished = false)
    (hidx : (run_adaptive answers).level_idx ≠ 0)
    (hc : block_finished_check (update_block (run_adaptive answers).block a))
    (hfail : ¬ (LEVEL_RULES (run_adaptive answers).block.level).promotion_threshold ≤
      (update_block (run_adaptive answers).block a).correct) :
    (adaptive_step (run_adaptive answers) a).finished = true ∧
    (adaptive_step (run_adaptive answers) a).confirmed = true ∧
    (adaptive_step (run_adaptive answers) a).final_level =
      some (LEVEL_SEQUENCE.getD ((run_adaptive answers).level_idx - 1) Level.A1) ∧
    (run_adaptive answers).block.level =
      LEVEL_SEQUENCE.getD (run_adaptive answers).level_idx Level.A1 := by
  obtain ⟨f1, f2, f3⟩ := step_fail_top_fields (run_adaptive answers) a hfin hidx hc hfail
  exact ⟨f1, f2, f3, (session_inv_run answers).level_eq hfin⟩

/-- Claim C6, witness: passing A1 (8/10) and then failing A2 at the 3rd
wrong answer finalizes, confirmed, at A1. -/
theorem C6_witness :
    (adaptive_step (run_adaptive ansC6_answers) false).finished = true ∧
    (adaptive_step (run_adaptive ansC6_answers) false).confirmed = true ∧
    (adaptive_step (run_adaptive ansC6_answers) false).final_level = some Level.A1 := by
  have h := C6_theorem ansC6_answers false (by decide) (by decide) (by decide) (by decide)
  exact ⟨h.1, h.2.1, h.2.2.1⟩

/-- Claim C3: the answer history never records more than 50 scored
items; when the cap is reached with the block still open after
evaluation, the session ends at once, unconfirmed, at the best-guess
level — which is the highest level holding a passed block whenever one
exists. -/
theorem C3_theorem :
    (∀ answers : List Bool, (run_adaptive answers).history.length ≤ MAX_QUESTIONS) ∧
    (∀ (answers : List Bool) (a : Bool),
      (run_adaptive answers).finished = false →
      (evaluate_block_completion (scored_state (run_adaptive answers) a)).finished = false →
      MAX_QUESTIONS ≤ (run_adaptive answers).history.length + 1 →
      (adaptive_step (run_adaptive answers) a).finished = true ∧
      (adaptive_step (run_adaptive answers) a).confirmed = false ∧
      (adaptive_step (run_adaptive answers) a).final_level =
        some (best_level_guess
          (evaluate_block_completion (scored_state (run_adaptive answers) a))) ∧
      ((∃ l, 0 < (adaptive_step (run_adaptive answers) a).passed_blocks l) →
        0 < (adaptive_step (run_adaptive answers) a).passed_blocks
          (best_level_guess
            (evaluate_block_completion (scored_state (run_adaptive answers) a))) ∧
        ∀ l, 0 < (adaptive_step (run_adaptive answers) a).passed_blocks l →
          level_index l ≤ level_index (best_level_guess
            (evaluate_block_completion (scored_state (run_adaptive answers) a))))) := by
  constructor
  · intro answers
    exact (session_inv_run answers).hist_le
  · intro answers a hfin hev hlen
    obtain ⟨f1, f2, f3, f4⟩ := step_cap_fields (run_adaptive answers) a hfin hev hlen
    refine ⟨f1, f2, f3, ?_⟩
    rw [f4]
    intro hex
    exact best_level_guess_spec _ hex

/-- Claim C3, witness: the 50th item with the 17th block still open
finalizes the session, unconfirmed. -/
theorem C3_witness :
    (adaptive_step (run_adaptive (List.replicate 49 false)) false).finished = true ∧
    (adaptive_step (run_adaptive (List.replicate 49 false)) false).confirmed = false := by
  have h := C3_theorem.2 (List.replicate 49 false) false (by decide) (by decide) (by decide)
  exact ⟨h.1, h.2.1⟩

/-- Claim C4: a block still below the promotion threshold closes as a
fail exactly at the answer that brings the wrong count to 3: every
fail-closed block result has wrong = 3, was closed by a wrong answer on
a block with wrong = 2, and a 3rd wrong answer below the threshold
always closes the block at that very answer. -/
theorem C4_theorem :
    (∀ (answers : List Bool) (a : Bool) (r : BlockResult),
      (run_adaptive answers).finished = false →
      (adaptive_step (run_adaptive answers) a).block_results =
        (run_adaptive answers).block_results ++ [r] →
      r.passed = false →
      r.wrong = 3 ∧ a = false ∧ (run_adaptive answers).block.wrong = 2 ∧
        r.correct < (LEVEL_RULES (run_adaptive answers).block.level).promotion_threshold ∧
        r.level = (run_adaptive answers).block.level) ∧
    (∀ answers : List Bool,
      (run_adaptive answers).finished = false →
      (run_adaptive answers).block.wrong = 2 →
      (run_adaptive answers).block.correct <
        (LEVEL_RULES (run_adaptive answers).block.level).promotion_threshold →
      (adaptive_step (run_adaptive answers) false).block_results =
        (run_adaptive answers).block_results ++
        [{ level := (run_adaptive answers).block.level
           correct := (run_adaptive answers).block.correct
           wrong := 3
           presented := (run_adaptive answers).block.presented + 1
           passed := false }]) := by
  constructor
  · intro answers a r hfin h hr
    exact step_fail_close_spec _ (session_inv_run answers) a hfin r h hr
  · intro answers hfin hw hcor
    exact step_third_wrong_closes _ hfin hw hcor

/-- Claim C4, witness: with wrong = 2 and correct = 0 on the first A1
block, the 3rd wrong answer closes it as a fail at that answer. -/
theorem C4_witness :
    (adaptive_step (run_adaptive [false, false]) false).block_results =
      (run_adaptive [false, false]).block_results ++
      [{ level := Level.A1, correct := 0, wrong := 3, presented := 3, passed := false }] :=
  C4_theorem.2 [false, false] (by decide) (by decide) (by decide)

/-- Claim C10: every reachable state has at most one passed block per
level, the level of the open block has no prior pass (so the
two-passes-finalize branch never fires), and a fresh confirmation only
arises from a pass closing at C2 or a fail closing above the lowest
level. -/
theorem C10_theorem :
    (∀ (answers : List Bool) (l : Level), (run_adaptive answers).passed_blocks l ≤ 1) ∧
    (∀ answers : List Bool, (run_adaptive answers).finished = false →
      (run_adaptive answers).passed_blocks (run_adaptive answers).block.level = 0) ∧
    (∀ (answers : List Bool) (a : Bool),
      (run_adaptive answers).confirmed = false →
      (adaptive_step (run_adaptive answers) a).confirmed = true →
      block_finished_check (update_block (run_adaptive answers).block a) ∧
      (((LEVEL_RULES (run_adaptive answers).block.level).promotion_threshold ≤
          (update_block (run_adaptive answers).block a).correct ∧
          (run_adaptive answers).block.level = Level.C2) ∨
        (¬ (LEVEL_RULES (run_adaptive answers).block.level).promotion_threshold ≤
          (update_block (run_adaptive answers).block a).correct ∧
          0 < (run_adaptive answers).level_idx))) := by
  have hzero : ∀ answers : List Bool, (run_adaptive answers).finished = false →
      (run_adaptive answers).passed_blocks (run_adaptive answers).block.level = 0 := by
    intro answers hfin
    have hs := session_inv_run answers
    by_contra h
    have hlt := hs.passed_lt_idx hfin _ (Nat.pos_of_ne_zero h)
    rw [hs.level_eq hfin, level_index_getD hs.idx_lt] at hlt
    omega
  refine ⟨fun answers => (session_inv_run answers).passed_le, hzero, ?_⟩
  intro answers a hconf hct
  have hs := session_inv_run answers
  cases hfin : (run_adaptive answers).finished
  · have hstep : adaptive_step (run_adaptive answers) a =
        process_adaptive_answer (run_adaptive answers) a := by
      simp [adaptive_step, hfin]
    rw [hstep] at hct
    unfold process_adaptive_answer at hct
    dsimp only [] at hct
    split_ifs at hct with hcap
    · rw [show (finish_adaptive (evaluate_block_completion
          (scored_state (run_adaptive answers) a))
          (best_level_guess (evaluate_block_completion
            (scored_state (run_adaptive answers) a))) false).confirmed = false
          from rfl] at hct
      exact absurd hct Bool.false_ne_true
    · have hres := evaluate_confirm_source (scored_state (run_adaptive answers) a)
        (by simpa [scored_state, update_block] using hzero answers hfin)
        hs.idx_lt
        (by simpa [scored_state, update_block] using hs.level_eq hfin)
        (by simpa [scored_state] using hconf)
        hct
      exact hres
  · rw [show adaptive_step (run_adaptive answers) a = run_adaptive answers from by
      simp [adaptive_step, hfin]] at hct
    rw [hconf] at hct
    exact absurd hct Bool.false_ne_true

/-- Claim C10, witness: the confirmation produced by failing A2 right
after passing A1 stems from a failing close above the lowest level. -/
theorem C10_witness :
    block_finished_check (update_block (run_adaptive ansC6_answers).block false) ∧
    (((LEVEL_RULES (run_adaptive ansC6_answers).block.level).promotion_threshold ≤
        (update_block (run_adaptive ansC6_answers).block false).correct ∧
        (run_adaptive ansC6_answers).block.level = Level.C2) ∨
      (¬ (LEVEL_RULES (run_adaptive ansC6_answers).block.level).promotion_threshold ≤
        (update_block (run_adaptive ansC6_answers).block false).correct ∧
        0 < (run_adaptive ansC6_answers).level_idx)) :=
  C10_theorem.2.2 ansC6_answers false (by decide) (by decide)

/-! ## Normalization lemmas -/

lemma toLower_eq_of_range (c : Char) (h : 65 ≤ c.toNat ∧ c.toNat ≤ 90) :
    c.toLower = Char.ofNat (c.toNat + 32) := by
  unfold Char.toLower
  dsimp only
  rw [if_pos ⟨h.1, h.2⟩]

lemma toLower_eq_self (c : Char) (h : ¬ (65 ≤ c.toNat ∧ c.toNat ≤ 90)) :
    c.toLower = c := by
  unfold Char.toLower
  dsimp only
  rw [if_neg (fun hh => h ⟨hh.1, hh.2⟩)]

lemma toLower_toLower (c : Char) : c.toLower.toLower = c.toLower := by
  by_cases h : 65 ≤ c.toNat ∧ c.toNat ≤ 90
  · rw [toLower_eq_of_range c h]
    obtain ⟨k, hk1, hk2⟩ : ∃ k, c.toNat = 65 + k ∧ k ≤ 25 :=
      ⟨c.toNat - 65, by omega, by omega⟩
    rw [hk1]
    interval_cases k <;> decide
  · rw [toLower_eq_self c h, toLower_eq_self c h]

lemma toLower_ws (c : Char) (h : c.isWhitespace = true) : c.toLower = c := by
  simp only [Char.isWhitespace, Bool.or_eq_true, decide_eq_true_eq] at h
  rcases h with ((h | h) | h) | h <;> subst h <;> decide

lemma split_ws_aux_all_ws (w : Str) (acc : Str)
    (h : ∀ c ∈ w, c.isWhitespace = true) :
    split_ws_aux w acc = if acc.isEmpty then [] else [acc.reverse] := by
  induction w generalizing acc with
  | nil => rfl
  | cons c w ih =>
    have hc : c.isWhitespace = true := h c (List.mem_cons_self c w)
    have hrest : ∀ x ∈ w, x.isWhitespace = true :=
      fun x hx => h x (List.mem_cons_of_mem c hx)
    rw [split_ws_aux, if_pos hc]
    by_cases hacc : acc.isEmpty = true
    · rw [if_pos hacc, ih [] hrest, if_pos hacc]
      rfl
    · rw [if_neg hacc, ih [] hrest, if_neg hacc]
      rfl

lemma split_ws_aux_append_ws (t w : Str) (acc : Str)
    (h : ∀ c ∈ w, c.isWhitespace = true) :
    split_ws_aux (t ++ w) acc = split_ws_aux t acc := by
  induction t generalizing acc with
  | nil =>
    rw [List.nil_append, split_ws_aux_all_ws w acc h]
    rfl
  | cons c t ih =>
    rw [List.cons_append, split_ws_aux, split_ws_aux]
    by_cases hc : c.isWhitespace = true
    · rw [if_pos hc, if_pos hc]
      by_cases hacc : acc.isEmpty = true
      · rw [if_pos hacc, if_pos hacc, ih []]
      · rw [if_neg hacc, if_neg hacc, ih []]
    · rw [if_neg hc, if_neg hc, ih (c :: acc)]

lemma split_ws_ws_cons (c : Char) (t : Str) (hc : c.isWhitespace = true) :
    split_ws (c :: t) = split_ws t := by
  unfold split_ws
  rw [split_ws_aux, if_pos hc]
  simp

lemma split_ws_aux_space_cons (w : Str) (acc : Str) :
    split_ws_aux (' ' :: w) acc =
      if acc.isEmpty then split_ws_aux w [] else acc.reverse :: split_ws_aux w [] := by
  rw [split_ws_aux, if_pos (by decide)]

lemma split_ws_double_space (t w : Str) (acc : Str) :
    split_ws_aux (t ++ ' ' :: ' ' :: w) acc = split_ws_aux (t ++ ' ' :: w) acc := by
  induction t generalizing acc with
  | nil =>
    simp only [List.nil_append]
    rw [split_ws_aux_space_cons (' ' :: w) acc, split_ws_aux_space_cons w [],
      split_ws_aux_space_cons w acc]
    by_cases hacc : acc.isEmpty = true <;> simp [hacc]
  | cons c t ih =>
    rw [List.cons_append, List.cons_append, split_ws_aux]
    conv_rhs => rw [split_ws_aux]
    by_cases hc : c.isWhitespace = true
    · rw [if_pos hc, if_pos hc]
      by_cases hacc : acc.isEmpty = true
      · rw [if_pos hacc, if_pos hacc, ih []]
      · rw [if_neg hacc, if_neg hacc, ih []]
    · rw [if_neg hc, if_neg hc, ih (c :: acc)]

lemma lower_str_append (a b : Str) : lower_str (a ++ b) = lower_str a ++ lower_str b := by
  unfold lower_str
  exact List.map_append _ a b

lemma lower_str_all_ws (w : Str) (h : ∀ c ∈ w, c.isWhitespace = true) :
    lower_str w = w := by
  unfold lower_str
  exact (List.map_congr_left fun c hc => toLower_ws c (h c hc)).trans (List.map_id w)

lemma split_lower_dropWhile (s : Str) :
    split_ws (lower_str (s.dropWhile Char.isWhitespace)) = split_ws (lower_str s) := by
  induction s with
  | nil => rfl
  | cons c s ih =>
    by_cases hc : c.isWhitespace = true
    · rw [List.dropWhile_cons_of_pos (by simpa using hc), ih]
      have : lower_str (c :: s) = c :: lower_str s := by
        unfold lower_str
        rw [List.map_cons, toLower_ws c hc]
      rw [this, split_ws_ws_cons c (lower_str s) hc]
    · rw [List.dropWhile_cons_of_neg (by simpa using hc)]

lemma split_lower_strip (s : Str) :
    split_ws (lower_str (strip s)) = split_ws (lower_str s) := by
  have key : ∀ u : Str, u =
      (u.reverse.dropWhile Char.isWhitespace).reverse ++
        (u.reverse.takeWhile Char.isWhitespace).reverse := by
    intro u
    conv_lhs => rw [← List.reverse_reverse u,
      ← List.takeWhile_append_dropWhile (p := Char.isWhitespace) (l := u.reverse)]
    rw [List.reverse_append]
  have tail_ws : ∀ u : Str, ∀ c ∈ (u.reverse.takeWhile Char.isWhitespace).reverse,
      c.isWhitespace = true := by
    intro u c hc
    exact List.mem_takeWhile_imp (List.mem_reverse.mp hc)
  unfold strip
  calc split_ws (lower_str
        (((s.dropWhile Char.isWhitespace).reverse.dropWhile Char.isWhitespace).reverse))
      = split_ws (lower_str (s.dropWhile Char.isWhitespace)) := by
        conv_rhs => rw [key (s.dropWhile Char.isWhitespace)]
        rw [lower_str_append]
        rw [lower_str_all_ws _ (tail_ws (s.dropWhile Char.isWhitespace))]
        unfold split_ws
        rw [split_ws_aux_append_ws _ _ _ (tail_ws (s.dropWhile Char.isWhitespace))]
    _ = split_ws (lower_str s) := split_lower_dropWhile s

/-- `normalize_for_comparison` is the space-joined, lowercased word list
of its argument: the leading strip is absorbed by the splitting. -/
lemma normalize_eq (v : Str) :
    normalize_for_comparison (some v) =
      join_with [' '] (split_ws (lower_str v)) := by
  unfold normalize_for_comparison normalize_free_text
  rw [Option.getD_some]
  exact congrArg (join_with [' ']) (split_lower_strip v)

lemma lower_str_idem (u : Str) : lower_str (lower_str u) = lower_str u := by
  unfold lower_str
  rw [List.map_map]
  exact List.map_congr_left fun c _ => toLower_toLower c

/-- Claim C7: for cloze-open, word-formation and key-transform items the
overall score is true exactly when every sub-element comparison
succeeds; sub-elements are compared through `normalize_for_comparison`,
which is insensitive to letter case, to leading/trailing whitespace and
to collapsed internal whitespace; key transformations accept any listed
alternative phrasing under the same normalization. -/
theorem C7_theorem :
    (∀ (items : List ClozeItem) (m : Nat → Option Str),
      ((score_question (Question.cloze_open items) (Response.rdict m)).is_correct = true ↔
        ∀ it ∈ items, normalize_for_comparison (m it.number) =
          normalize_for_comparison (some it.answer))) ∧
    (∀ (items : List WordFormationItem) (m : Nat → Option Str),
      ((score_question (Question.word_formation items) (Response.rdict m)).is_correct = true ↔
        ∀ it ∈ items, normalize_for_comparison (m it.number) =
          normalize_for_comparison (some it.answer))) ∧
    (∀ (items : List TransformItem) (m : Nat → Option Str),
      ((score_question (Question.key_transform items) (Response.rdict m)).is_correct = true ↔
        ∀ it ∈ items, ∃ cand ∈ it.answer :: it.alternatives,
          normalize_for_comparison (some cand) = normalize_for_comparison (m it.number))) ∧
    (∀ u : Str, normalize_for_comparison (some (lower_str u)) =
      normalize_for_comparison (some u)) ∧
    (∀ u : Str, normalize_for_comparison (some (strip u)) =
      normalize_for_comparison (some u)) ∧
    (∀ u v : Str, normalize_for_comparison (some (u ++ ' ' :: ' ' :: v)) =
      normalize_for_comparison (some (u ++ ' ' :: v))) := by
  refine ⟨?_, ?_, ?_, ?_, ?_, ?_⟩
  · intro items m
    simp [score_question, dict_get, List.all_map, List.all_eq_true, Function.comp]
  · intro items m
    simp [score_question, dict_get, List.all_map, List.all_eq_true, Function.comp]
  · intro items m
    simp [score_question, dict_get, List.all_map, List.all_eq_true, Function.comp,
      List.mem_map]
    constructor
    · intro h it hit
      rcases h it hit with h1 | h2
      · exact Or.inl h1.symm
      · exact Or.inr h2
    · intro h it hit
      rcases h it hit with h1 | h2
      · exact Or.inl h1.symm
      · exact Or.inr h2
  · intro u
    rw [normalize_eq, normalize_eq, lower_str_idem]
  · intro u
    rw [normalize_eq, normalize_eq]
    exact congrArg (join_with [' ']) (split_lower_strip u)
  · intro u v
    rw [normalize_eq, normalize_eq]
    refine congrArg (join_with [' ']) ?_
    rw [lower_str_append, lower_str_append]
    have h2 : lower_str (' ' :: ' ' :: v) = ' ' :: ' ' :: lower_str v := by
      unfold lower_str
      simp only [List.map_cons]
      rw [show Char.toLower ' ' = ' ' from by decide]
    have h1 : lower_str (' ' :: v) = ' ' :: lower_str v := by
      unfold lower_str
      simp only [List.map_cons]
      rw [show Char.toLower ' ' = ' ' from by decide]
    rw [h1, h2]
    unfold split_ws
    exact split_ws_double_space (lower_str u) (lower_str v) []

lemma validate_none_iff (q : Question) (r : Response) :
    validate_response q r = none ↔ response_is_complete q r = true := by
  unfold validate_response
  by_cases hc : response_is_complete q r = true
  · simp [hc]
  · rw [if_neg hc]
    refine iff_of_false ?_ hc
    cases q <;> simp <;> split_ifs <;> simp

lemma submit_incomplete (s : SessionState) (q : Question) (r : Response)
    (h : response_is_complete q r = false) :
    ∃ w, submit_adaptive s q r = (s, some w) := by
  cases hv : validate_response q r with
  | none =>
    have := (validate_none_iff q r).mp hv
    rw [h] at this
    exact absurd this (by simp)
  | some w =>
    exact ⟨w, by simp [submit_adaptive, hv]⟩

/-- A 55-word response (55 words of one letter each). -/
def fifty_five_words : Str := join_with [' '] (List.replicate 55 ['w'])

/-- Claim C8: a response is complete only when every required
sub-element is non-empty; an open-writing response is complete exactly
when its word count lies within the item's bounds (55 words pass a
40-60 item, 30 words fail with the word-count warning); an incomplete
response yields a warning naming the missing parts and is not scored —
the submit handler returns the session unchanged. -/
theorem C8_theorem :
    (∀ (min_words max_words : Nat) (t : Str),
      (response_is_complete (Question.open_text min_words max_words)
          (Response.rtext t) = true ↔
        min_words ≤ count_words (some t) ∧ count_words (some t) ≤ max_words)) ∧
    (∀ t : Str, count_words (some t) = 55 →
      response_is_complete (Question.open_text 40 60) (Response.rtext t) = true) ∧
    (∀ t : Str, count_words (some t) = 30 →
      response_is_complete (Question.open_text 40 60) (Response.rtext t) = false ∧
      validate_response (Question.open_text 40 60) (Response.rtext t) =
        some ("Tu respuesta debe tener al menos ".data ++ (toString (40 : Nat)).data ++
          " palabras (actual: ".data ++ (toString (30 : Nat)).data ++ ").".data)) ∧
    (∀ (items : List ClozeItem) (m : Nat → Option Str),
      (response_is_complete (Question.cloze_open items) (Response.rdict m) = true ↔
        ∀ it ∈ items, (normalize_free_text (m it.number)).isEmpty = false)) ∧
    (∀ (q : Question) (r : Response),
      (validate_response q r = none ↔ response_is_complete q r = true)) ∧
    (∀ (s : SessionState) (q : Question) (r : Response),
      response_is_complete q r = false → ∃ w, submit_adaptive s q r = (s, some w)) ∧
    (∀ (items : List ClozeItem) (m : Nat → Option Str),
      response_is_complete (Question.cloze_open items) (Response.rdict m) = false →
      validate_response (Question.cloze_open items) (Response.rdict m) =
        some ("Completa todos los huecos (pendientes: ".data ++
          join_numbers (missing_numbers (items.map (·.number)) (Response.rdict m)) ++
          ").".data) ∧
      missing_numbers (items.map (·.number)) (Response.rdict m) ≠ []) := by
  refine ⟨?_, ?_, ?_, ?_, validate_none_iff, submit_incomplete, ?_⟩
  · intro min_words max_words t
    simp [response_is_complete]
  · intro t h
    simp [response_is_complete, h]
  · intro t h
    constructor
    · simp [response_is_complete, h]
    · unfold validate_response
      rw [if_neg (by simp [response_is_complete, h])]
      simp only []
      rw [show count_words (match Response.rtext t with
          | Response.rtext t => some t
          | _ => none) = 30 from h]
      rfl
  · intro items m
    simp [response_is_complete, List.all_eq_true, dict_get]
  · intro items m hinc
    have hmiss : missing_numbers (items.map (·.number)) (Response.rdict m) ≠ [] := by
      simp only [response_is_complete, List.all_eq_false, Bool.not_eq_true',
        Bool.not_eq_false] at hinc
      obtain ⟨it, hit, hempty⟩ := hinc
      refine List.ne_nil_of_mem (a := it.number) ?_
      unfold missing_numbers
      rw [List.mem_filter]
      exact ⟨List.mem_map_of_mem _ hit, by simpa [dict_get] using hempty⟩
    refine ⟨?_, hmiss⟩
    unfold validate_response
    rw [if_neg (by simp [hinc])]
    simp only []
    rw [if_neg (by simpa using hmiss)]

/-- Claim C8, witness: the 55-word response is complete for a
min 40 / max 60 writing item. -/
theorem C8_witness :
    response_is_complete (Question.open_text 40 60)
      (Response.rtext fifty_five_words) = true :=
  C8_theorem.2.1 fifty_five_words (by decide)

/-- An item whose `skill` is `"writing"` but whose type is not
`open_text` can never pass validation. -/
lemma validate_entry_writing_pair (seen : List Str) (level : Str) (e : BankEntry)
    (h1 : e.skill = "writing".data) (h2 : e.type_ ≠ WRITING_TYPE) :
    ∃ msg, validate_bank_entry seen level e = .error msg := by
  unfold validate_bank_entry
  simp only [bind, Except.bind, throw, throwThe, MonadExceptOf.throw, pure, Except.pure]
  by_cases hd : seen.contains e.id = true
  · rw [if_pos hd]
    exact ⟨_, rfl⟩
  · rw [if_neg hd]
    by_cases hl : e.level ≠ level
    · rw [if_pos hl]
      exact ⟨_, rfl⟩
    · rw [if_neg hl]
      by_cases hs : ¬ ALLOWED_SKILLS.contains e.skill = true
      · rw [if_pos hs]
        exact ⟨_, rfl⟩
      · rw [if_neg hs]
        by_cases ht : ¬ SUPPORTED_TYPES.contains e.type_ = true
        · rw [if_pos ht]
          exact ⟨_, rfl⟩
        · rw [if_neg ht, if_pos ⟨h1, h2⟩]
          exact ⟨_, rfl⟩

/-- An `open_text` item whose skill is not `"writing"` and whose
`task_type` is not `"short_answer"` can never pass validation. -/
lemma validate_entry_open_text (seen : List Str) (level : Str) (e : BankEntry)
    (h1 : e.type_ = WRITING_TYPE) (h2 : e.skill ≠ "writing".data)
    (h3 : e.task_type ≠ some "short_answer".data) :
    ∃ msg, validate_bank_entry seen level e = .error msg := by
  unfold validate_bank_entry
  simp only [bind, Except.bind, throw, throwThe, MonadExceptOf.throw, pure, Except.pure]
  by_cases hd : seen.contains e.id = true
  · rw [if_pos hd]
    exact ⟨_, rfl⟩
  · rw [if_neg hd]
    by_cases hl : e.level ≠ level
    · rw [if_pos hl]
      exact ⟨_, rfl⟩
    · rw [if_neg hl]
      by_cases hs : ¬ ALLOWED_SKILLS.contains e.skill = true
      · rw [if_pos hs]
        exact ⟨_, rfl⟩
      · rw [if_neg hs]
        by_cases ht : ¬ SUPPORTED_TYPES.contains e.type_ = true
        · rw [if_pos ht]
          exact ⟨_, rfl⟩
        · rw [if_neg ht, if_neg (fun hcon => h2 hcon.1), if_pos ⟨h1, h2⟩, if_pos h3]
          exact ⟨_, rfl⟩

lemma load_items_error_of_mem (level : Str) (e : BankEntry)
    (P : ∀ seen, ∃ msg, validate_bank_entry seen level e = .error msg) :
    ∀ (items : List BankEntry) (seen : List Str), e ∈ items →
      ∃ msg, load_items level seen items = .error msg := by
  intro items
  induction items with
  | nil =>
    intro seen h
    simp at h
  | cons f rest ih =>
    intro seen hmem
    rcases List.mem_cons.mp hmem with rfl | hmem2
    · obtain ⟨msg, hval⟩ := P seen
      exact ⟨msg, by simp [load_items, hval, bind, Except.bind]⟩
    · cases hv : validate_bank_entry seen level f with
      | error msg =>
        exact ⟨msg, by simp [load_items, hv, bind, Except.bind]⟩
      | ok u =>
        obtain ⟨msg, hrest⟩ := ih (f.id :: seen) hmem2
        exact ⟨msg, by simp [load_items, hv, hrest, bind, Except.bind]⟩

lemma load_levels_error_of_mem (level : Str) (items : List BankEntry) (e : BankEntry)
    (hmem : e ∈ items)
    (P : ∀ seen, ∃ msg, validate_bank_entry seen level e = .error msg) :
    ∀ (doc : List (Str × List BankEntry)) (seen : List Str), (level, items) ∈ doc →
      ∃ msg, load_levels seen doc = .error msg := by
  intro doc
  induction doc with
  | nil =>
    intro seen h
    simp at h
  | cons p rest ih =>
    intro seen hp
    rcases List.mem_cons.mp hp with rfl | hp2
    · obtain ⟨msg, hitems⟩ := load_items_error_of_mem level e P items seen hmem
      refine ⟨msg, ?_⟩
      simp [load_levels, MIN_ITEMS_PER_LEVEL, hitems, bind, Except.bind, pure, Except.pure]
    · obtain ⟨lv, its⟩ := p
      cases hli : load_items lv seen its with
      | error msg =>
        exact ⟨msg, by simp [load_levels, MIN_ITEMS_PER_LEVEL, hli, bind, Except.bind, pure, Except.pure]⟩
      | ok seen2 =>
        obtain ⟨msg, hrest⟩ := ih seen2 hp2
        exact ⟨msg, by simp [load_levels, MIN_ITEMS_PER_LEVEL, hli, hrest, bind, Except.bind, pure, Except.pure]⟩

/-- The bank entry used to refute the claim: an `open_text` item with
skill `"grammar"` and `task_type "short_answer"`, otherwise fully
valid. -/
def shortAnswerEntry : BankEntry :=
  { id := "x1".data
    level := "A1".data
    skill := "grammar".data
    type_ := "open_text".data
    prompt := "Answer briefly".data
    task_type := some "short_answer".data
    options := none
    answer := none
    cloze_items := none
    word_formation_items := none
    transform_items := none
    min_words := some 10
    max_words := some 20
    rubric := some ["Content".data]
    explanation := none
    estimated_time := none }

/-- A writing-skill item whose type is `multiple_choice`: the opposite
pairing violation, which the loader does reject. -/
def badWritingEntry : BankEntry :=
  { shortAnswerEntry with
    skill := "writing".data
    type_ := "multiple_choice".data
    options := some ["a".data, "b".data]
    answer := some "a".data }

/-- Claim C9, counterexample: a document holding an `open_text` item
whose skill is "grammar" (with `task_type "short_answer"`) loads
successfully — the claimed validation error is not raised. -/
theorem C9_counterexample :
    (match load_item_bank [("A1".data, [shortAnswerEntry])] with
      | Except.ok _ => true
      | Except.error _ => false) = true ∧
    shortAnswerEntry.type_ = WRITING_TYPE ∧
    ¬ shortAnswerEntry.skill = "writing".data := by
  refine ⟨?_, rfl, by decide⟩
  rfl

/-- Claim C9 (amended): the load fails, atomically, for any document
holding an item with skill "writing" and a non-open-text type, and for
any open-text item whose skill is not "writing" unless its task type is
"short_answer"; no partial catalog is produced on failure. -/
theorem C9_theorem :
    (∀ (doc : List (Str × List BankEntry)) (level : Str) (items : List BankEntry)
        (e : BankEntry), (level, items) ∈ doc → e ∈ items →
      e.skill = "writing".data → e.type_ ≠ WRITING_TYPE →
      ∃ msg, load_item_bank doc = .error msg) ∧
    (∀ (doc : List (Str × List BankEntry)) (level : Str) (items : List BankEntry)
        (e : BankEntry), (level, items) ∈ doc → e ∈ items →
      e.type_ = WRITING_TYPE → e.skill ≠ "writing".data →
      e.task_type ≠ some "short_answer".data →
      ∃ msg, load_item_bank doc = .error msg) := by
  constructor
  · intro doc level items e hdoc hitem h1 h2
    obtain ⟨msg, hlev⟩ := load_levels_error_of_mem level items e hitem
      (fun seen => validate_entry_writing_pair seen level e h1 h2) doc [] hdoc
    exact ⟨msg, by simp [load_item_bank, hlev, bind, Except.bind]⟩
  · intro doc level items e hdoc hitem h1 h2 h3
    obtain ⟨msg, hlev⟩ := load_levels_error_of_mem level items e hitem
      (fun seen => validate_entry_open_text seen level e h1 h2 h3) doc [] hdoc
    exact ⟨msg, by simp [load_item_bank, hlev, bind, Except.bind]⟩

/-- Claim C9, witness: a document with a writing-skill multiple-choice
item fails to load. -/
theorem C9_witness :
    ∃ msg, load_item_bank [("A1".data, [badWritingEntry])] = .error msg :=
  C9_theorem.1 [("A1".data, [badWritingEntry])] "A1".data [badWritingEntry]
    badWritingEntry (List.mem_singleton.mpr rfl) (List.mem_singleton.mpr rfl)
    (by decide) (by decide)

end EnglishTest
